import Mathlib

/-!
Shallow embedding of the `waterbutler` s3compat provider
(`waterbutler/providers/s3compat/provider.py`) and of the credential
chain in `waterbutler/server/auth.py`, together with proofs about the
claims of the natural-language specification.

Modelling conventions:

* The S3-compatible backend is a `Backend`: the list of object keys
  currently present in the bucket.  Backend semantics follow S3:
  `HEAD object` answers 200 when the key is present and 404 otherwise;
  `DELETE object` answers 204 whether or not the key is present;
  `GET ?prefix=p` lists every key starting with `p` and answers 200
  even when the listing is empty.
* Each provider operation is a pure function returning the operation
  outcome (`Except PyErr _`), the list of backend requests it issued
  (`Call`), and the backend state afterwards.
* Python runtime failures that the source can actually hit (raising a
  class that is not an exception, referencing an unbound variable,
  reading a missing attribute) are modelled as the `PyErr` constructors
  `pyTypeError`, `pyNameError` and `pyAttributeError`.
-/

namespace S3Compat

/-- Python `str.lstrip('/')`: drop every leading slash character. -/
def lstripSlashAux : List Char → List Char
  | [] => []
  | c :: cs => if c = '/' then lstripSlashAux cs else c :: cs

/-- Python `s.lstrip('/')` on a string. -/
def lstripSlash (s : String) : String := ⟨lstripSlashAux s.data⟩

/-- Python `s.rstrip('/')` on a string. -/
def rstripSlash (s : String) : String := ⟨(lstripSlashAux s.data.reverse).reverse⟩

/-- Python `s.lower()` (ASCII case folding suffices for the sentinels used). -/
def pyLower (s : String) : String := ⟨s.data.map Char.toLower⟩

/-- Python `s.endswith(suff)`, computed on the character lists. -/
def strEndsWith (s suff : String) : Bool := suff.data.isSuffixOf s.data

/-- Python `s.startswith(pre)`, computed on the character lists. -/
def strStartsWith (s pre : String) : Bool := pre.data.isPrefixOf s.data

/-- The fields of a core `WaterButlerPath` that the s3compat provider reads:
`full_path` (prepend applied, leading slash kept), `is_file` and `is_root`. -/
structure WBPath where
  fullPath : String
  isFile : Bool
  isRoot : Bool
deriving DecidableEq, Repr

/-- The typed waterbutler exceptions raised by the embedded code, plus the
untyped Python runtime errors the source can actually raise. -/
inductive PyErr
  | notFound (msg : String)
  | deleteError (msg : String) (code : Nat)
  | downloadError (msg : String) (code : Nat)
  | metadataError (msg : String)
  | invalidParameters (msg : String)
  | pyNameError (unboundName : String)
  | pyAttributeError (msg : String)
  | pyTypeError (msg : String)
deriving DecidableEq, Repr

/-- Bucket state of the S3-compatible backend: the object keys present. -/
structure Backend where
  keys : List String
deriving DecidableEq, Repr

/-- A backend request issued by the provider. -/
inductive Call
  | deleteObject (key : String)
  | listObjects (pfx : String)
  | putObject (key : String)
  | copyPut (key : String)
  | getObject (key : String)
  | headFolder (pfx : String)
  | headObject (key : String)
deriving DecidableEq, Repr

/-- Remove a key from the bucket (effect of a `DELETE object` request). -/
def Backend.removeKey (b : Backend) (key : String) : Backend :=
  ⟨b.keys.filter (fun k => k ≠ key)⟩

/-- Store a key in the bucket (effect of a `PUT object` request). -/
def Backend.putKey (b : Backend) (key : String) : Backend :=
  ⟨if b.keys.contains key then b.keys else b.keys ++ [key]⟩

/-- `GET ?prefix=p`: the keys of the bucket starting with `p`
(`self.bucket.objects.filter(Prefix=p)`). -/
def Backend.listPfx (b : Backend) (p : String) : List String :=
  b.keys.filter (fun k => strStartsWith k p)

/-- Result triple of a state-changing provider operation. -/
structure OpRet (α : Type) where
  res : Except PyErr α
  calls : List Call
  after : Backend

/-- `S3CompatProvider._folder_prefix_exists`.  The source computes
`object_count = len(list(objects))` and then evaluates
`True if exist_count > 0 else False`; `exist_count` is unbound, so the
function always raises `NameError` before returning. -/
def folder_prefix_exists (b : Backend) (folderPfx : String) : Except PyErr Bool :=
  let objects := (b.listPfx (rstripSlash folderPfx)).take 1
  let objectCount := objects.length
  -- `is_exists = True if exist_count > 0 else False`: `exist_count` unbound
  if objectCount = objectCount then .error (.pyNameError "exist_count")
  else .error (.pyNameError "exist_count")

/-- `S3CompatProvider._delete_folder`.  The source:
* raises `InvalidParameters` when `full_path` does not end in `/`;
* lists the keys under the prefix `path.full_path.lstrip('/')`;
* builds `content_keys = [object.key for content in contents]` — the loop
  variable is `content` but the body reads the builtin `object`, so a
  non-empty listing raises `AttributeError`;
* on an empty listing calls `self._folder_prefix_exists(prefix)` — but no
  variable `prefix` is in scope in `_delete_folder`, so this raises
  `NameError` (and `_folder_prefix_exists` itself would raise `NameError`
  on the unbound `exist_count`). -/
def delete_folder (b : Backend) (p : WBPath) : OpRet Unit :=
  if ¬ strEndsWith p.fullPath "/" then
    ⟨.error (.invalidParameters ("not a folder: " ++ p.fullPath)), [], b⟩
  else
    let pfx := lstripSlash p.fullPath
    let contents := b.listPfx pfx
    match contents with
    | [] => ⟨.error (.pyNameError "prefix"), [.listObjects pfx], b⟩
    | _ :: _ =>
        ⟨.error (.pyAttributeError "type object object has no attribute key"),
         [.listObjects pfx], b⟩

/-- `S3CompatProvider.delete`.
* a root path without `confirm_delete == 1` raises
  `DeleteError(..., code=400)` before any request;
* a file path issues one `DELETE object` on `path.full_path` with no
  existence check; the S3-compatible backend answers 204 even for a
  missing key, which is in `expects=(200, 204)`, so the call succeeds;
* any other path is handed to `_delete_folder`. -/
def delete (b : Backend) (p : WBPath) (confirm_delete : Int) : OpRet Unit :=
  if p.isRoot ∧ confirm_delete ≠ 1 then
    ⟨.error (.deleteError "confirm_delete=1 is required for deleting root provider folder" 400),
     [], b⟩
  else if p.isFile then
    ⟨.ok (), [.deleteObject p.fullPath], b.removeKey p.fullPath⟩
  else
    delete_folder b p

/-- `S3CompatProvider.can_intra_copy`: the source ignores both arguments
and returns `False` (the type-based check is commented out). -/
def can_intra_copy (destKeys : Backend) (p : Option WBPath) : Bool :=
  match destKeys, p with
  | _, _ => false

/-- `S3CompatProvider.can_intra_move`: the source ignores both arguments
and returns `False` (the type-based check is commented out). -/
def can_intra_move (destKeys : Backend) (p : Option WBPath) : Bool :=
  match destKeys, p with
  | _, _ => false

/-- Modelled from the spec: `BaseProvider.exists` (waterbutler core, not in
src) probes the backend for an object at the path and reports whether one
exists. -/
def existsObj (b : Backend) (p : WBPath) : Bool :=
  b.keys.contains p.fullPath

/-- Largest key length present in the bucket. -/
def maxKeyLen (keys : List String) : Nat :=
  (keys.map String.length).foldr Nat.max 0

/-- A path string guaranteed to name no existing object: the renamed
candidate is longer than every key in the bucket. -/
def freshName (b : Backend) (base : String) : String :=
  base ++ ⟨List.replicate (maxKeyLen b.keys + 1) '+'⟩

/-- Upload conflict policies named by the spec: replace the existing
object, or keep both by renaming the destination. -/
inductive Conflict
  | replace
  | keep
deriving DecidableEq, Repr

/-- Modelled from the spec: `BaseProvider.handle_name_conflict` (waterbutler
core, not in src).  The conflict policy determines whether an existing
object at the destination is replaced (path kept, existing flag reported)
or the destination path is renamed to avoid the collision (fresh path,
nothing exists there).  Returns the final path and whether an object
already exists at it. -/
def handle_name_conflict (b : Backend) (p : WBPath) (conflict : Conflict) :
    WBPath × Bool :=
  match conflict with
  | .replace => (p, existsObj b p)
  | .keep =>
      if existsObj b p then (⟨freshName b p.fullPath, p.isFile, p.isRoot⟩, false)
      else (p, false)

/-- The uploaded stream: a sequence of byte chunks, hashed incrementally. -/
structure ByteStream where
  chunks : List (List Nat)
deriving DecidableEq, Repr

/-- An incremental hash algorithm (`hashlib.md5` in the source): a running
state updated chunk by chunk and a final hex rendering. -/
structure HashAlg where
  init : Nat
  step : Nat → List Nat → Nat
  hex : Nat → String

/-- The incremental digest of the stream: the fold of the hash step over
the chunks, as computed by the `HashStreamWriter` attached to the stream. -/
def streamDigest (alg : HashAlg) (s : ByteStream) : String :=
  alg.hex (s.chunks.foldl alg.step alg.init)

/-- What `S3CompatProvider.upload` returns: the metadata of the final path
and the `created` flag; `md5hex` records the digest the stream writer
computed while the bytes were sent. -/
structure UploadResult where
  metadataPath : String
  created : Bool
  md5hex : String
deriving DecidableEq, Repr

/-- `S3CompatProvider.upload`.  The source resolves the name conflict
first (`path, exists = await self.handle_name_conflict(...)`), attaches an
incremental md5 writer to the stream, issues one presigned `PUT object`
and returns `(metadata, not exists)`.  `etag` is the checksum header of
the backend response; the source never compares it with the computed
digest (the assertion is commented out), so it does not influence the
result. -/
def upload (alg : HashAlg) (b : Backend) (p : WBPath) (conflict : Conflict)
    (stream : ByteStream) (etag : String) : OpRet UploadResult :=
  let pe := handle_name_conflict b p conflict
  let digest := streamDigest alg stream
  ⟨.ok ⟨pe.1.fullPath, !pe.2, digest⟩,
   [.putObject pe.1.fullPath],
   b.putKey pe.1.fullPath⟩

/-- `S3CompatProvider.intra_copy`.  The source reads
`exists = await dest_provider.exists(dest_path)` before copying, issues
one presigned `PUT` with the `x-amz-copy-source` header against the
destination bucket, and returns `(metadata of dest_path, not exists)`. -/
def intra_copy (destB : Backend) (source_path dest_path : WBPath) :
    OpRet (String × Bool) :=
  let ex := existsObj destB dest_path
  let srcKey := source_path.fullPath
  ⟨.ok (dest_path.fullPath, !ex),
   [.copyPut (srcKey ++ "->" ++ dest_path.fullPath)],
   destB.putKey dest_path.fullPath⟩

/-- The query parameters `S3CompatProvider.download` builds for the
presigned `get_object` URL: `VersionId` is added only when the version
argument is truthy and its lowercasing differs from the sentinel
`latest`. -/
def downloadQuery (bucketName key : String) (version : Option String) :
    List (String × String) :=
  let base := [("Bucket", bucketName), ("Key", key)]
  match version with
  | none => base
  | some v =>
      if v ≠ "" ∧ pyLower v ≠ "latest" then base ++ [("VersionId", v)]
      else base

/-- `S3CompatProvider.download`.  A non-file path raises
`DownloadError(code=400)` before any request; otherwise one `GET` on the
presigned URL is issued, `expects=(200, 206)`, everything else raising
`DownloadError`.  The S3 backend answers 200 when the key exists and 404
otherwise. -/
def download (b : Backend) (p : WBPath) (version : Option String) :
    Except PyErr String × List Call :=
  if ¬ p.isFile then
    (.error (.downloadError "No file specified for download" 400), [])
  else if b.keys.contains p.fullPath then
    (.ok p.fullPath, [.getObject p.fullPath])
  else
    (.error (.downloadError "download failed" 404), [.getObject p.fullPath])

/-- The `VersionId` that `S3CompatProvider._metadata_file` sends to
`head_object`: `None` and the literal `Latest` are normalised to `null`,
every other string (including lowercase `latest`) is passed verbatim. -/
def metadataFileVersionId (revision : Option String) : String :=
  match revision with
  | none => "null"
  | some r => if r = "Latest" then "null" else r

/-- The full `head_object` query `S3CompatProvider._metadata_file`
issues. -/
def metadataFileQuery (bucketName key : String) (revision : Option String) :
    List (String × String) :=
  [("Bucket", bucketName), ("Key", key),
   ("VersionId", metadataFileVersionId revision)]

/-- `WaterButlerPath(path, prepend=self.prefix)` as the s3compat provider
uses it: `full_path` is the provider prepend followed by the path string,
the path is a file when it does not end in the separator, and the root is
the bare `/`. -/
def mkWBPath (prepend path : String) : WBPath :=
  ⟨prepend ++ path, ¬ strEndsWith path "/", path = "/"⟩

/-- `S3CompatProvider.validate_v1_path`.
* the literal `/` returns the root path with no backend request;
* otherwise one existence request is issued — a `HEAD` with
  `prefix`/`delimiter` parameters when the string ends in `/`, a
  `HEAD object` on the key otherwise — with `expects=(200, 404)` and
  `throws=MetadataError`;
* a 404 answer raises `NotFoundError`, a 200 answer returns the path,
  any other status makes `make_request` raise `MetadataError`.
`status` is the backend's answer to that single request. -/
def validate_v1_path (status : Nat) (prepend path : String) :
    Except PyErr WBPath × List Call :=
  let wbpath := mkWBPath prepend path
  if path = "/" then (.ok wbpath, [])
  else
    let implicitFolder := strEndsWith path "/"
    let pfx := lstripSlash wbpath.fullPath
    let call := if implicitFolder then Call.headFolder pfx else Call.headObject pfx
    if status = 200 ∨ status = 404 then
      if status = 404 then (.error (.notFound pfx), [call])
      else (.ok wbpath, [call])
    else
      (.error (.metadataError "Unable to handle unexpected status code"), [call])

/-- A concrete incremental hash algorithm standing in for `hashlib.md5`
in concrete evaluations: the running state is a Nat folded over the
chunks. -/
def mdAlg : HashAlg :=
  ⟨0, fun a c => a + c.sum + 1, fun n => toString n⟩

end S3Compat

namespace WBAuth

/-- `waterbutler/server/auth.py`.  An extension's `fetch`/`get` result:
`none` models a falsy credential (the `if credential:` test fails),
`some c` a truthy one. -/
abbrev ExtResult := Option String

/-- `AuthHandler.fetch`: query the registered extensions in order and
return the first truthy credential.  When every extension returns a falsy
result the source executes `raise AuthHandler('no valid credential
found')` — `AuthHandler` is not an exception class, so Python raises
`TypeError: exceptions must derive from BaseException` instead of a typed
credential error. -/
def authFetch (extensions : List ExtResult) : Except S3Compat.PyErr String :=
  match extensions with
  | [] => .error (.pyTypeError "exceptions must derive from BaseException")
  | none :: rest => authFetch rest
  | some credential :: _ => .ok credential

/-- `AuthHandler.get`: identical loop shape to `AuthHandler.fetch`, ending
in the same `raise AuthHandler('no valid credential found')` statement. -/
def authGet (extensions : List ExtResult) : Except S3Compat.PyErr String :=
  match extensions with
  | [] => .error (.pyTypeError "exceptions must derive from BaseException")
  | none :: rest => authGet rest
  | some credential :: _ => .ok credential

end WBAuth

namespace S3Compat

/-- Every key of the bucket is at most `maxKeyLen` characters long. -/
theorem length_le_maxKeyLen {k : String} {ks : List String} (h : k ∈ ks) :
    k.length ≤ maxKeyLen ks := by
  induction ks with
  | nil => cases h
  | cons a t ih =>
      rcases List.mem_cons.mp h with rfl | ht
      · exact Nat.le_max_left _ _
      · exact Nat.le_trans (ih ht) (Nat.le_max_right _ _)

/-- The renamed candidate is strictly longer than the longest key. -/
theorem freshName_length (b : Backend) (base : String) :
    (freshName b base).length = base.length + (maxKeyLen b.keys + 1) := by
  have hmk : (String.mk (List.replicate (maxKeyLen b.keys + 1) '+')).length
      = maxKeyLen b.keys + 1 := by
    simp [String.length]
  calc (freshName b base).length
      = base.length + (String.mk (List.replicate (maxKeyLen b.keys + 1) '+')).length :=
        String.length_append _ _
    _ = base.length + (maxKeyLen b.keys + 1) := by rw [hmk]

/-- The renamed destination chosen by the keep-both policy never collides
with an existing key. -/
theorem freshName_not_mem (b : Backend) (base : String) :
    freshName b base ∉ b.keys := by
  intro hmem
  have hle := length_le_maxKeyLen hmem
  have hlen := freshName_length b base
  omega

/-- C1: deleting the provider root with `confirm_delete ≠ 1` raises
`DeleteError` with code 400, issues no backend request, and leaves the
backend state unchanged. -/
theorem delete_root_unconfirmed_400 (b : Backend) (p : WBPath) (confirm : Int)
    (hroot : p.isRoot = true) (hconfirm : confirm ≠ 1) :
    delete b p confirm =
      ⟨.error (.deleteError "confirm_delete=1 is required for deleting root provider folder" 400),
       [], b⟩ := by
  simp [delete, hroot, hconfirm]

/-- C1 witness: the theorem applied to the root path of a one-key bucket
with `confirm_delete = 0`. -/
theorem delete_root_unconfirmed_400_witness :
    delete ⟨["k"]⟩ ⟨"/", false, true⟩ 0 =
      ⟨.error (.deleteError "confirm_delete=1 is required for deleting root provider folder" 400),
       [], ⟨["k"]⟩⟩ :=
  delete_root_unconfirmed_400 ⟨["k"]⟩ ⟨"/", false, true⟩ 0 rfl (by decide)

/-- C2 counterexample: on an empty bucket the file path `/a.txt` does not
exist, yet `delete` raises no `NotFoundError` — it returns success and
issues exactly one destructive `DELETE` request. -/
theorem delete_missing_file_counterexample :
    existsObj ⟨[]⟩ ⟨"/a.txt", true, false⟩ = false ∧
    (delete ⟨[]⟩ ⟨"/a.txt", true, false⟩ 0).res = .ok () ∧
    (delete ⟨[]⟩ ⟨"/a.txt", true, false⟩ 0).calls = [.deleteObject "/a.txt"] :=
  ⟨rfl, rfl, rfl⟩

/-- C2 amended: for every non-root file path, `delete` performs no
existence check: it issues exactly one `DELETE object` request whether or
not the key exists, and — the backend answering 204 for a missing key —
completes without `NotFoundError`. -/
theorem delete_file_unconditional (b : Backend) (p : WBPath) (confirm : Int)
    (hfile : p.isFile = true) (hroot : p.isRoot = false) :
    delete b p confirm = ⟨.ok (), [.deleteObject p.fullPath], b.removeKey p.fullPath⟩ := by
  simp [delete, hroot, hfile]

/-- C2 amended witness: the theorem applied to a missing file path on a
bucket holding an unrelated key. -/
theorem delete_file_unconditional_witness :
    delete ⟨["x"]⟩ ⟨"/b.txt", true, false⟩ 0 =
      ⟨.ok (), [.deleteObject "/b.txt"], Backend.removeKey ⟨["x"]⟩ "/b.txt"⟩ :=
  delete_file_unconditional ⟨["x"]⟩ ⟨"/b.txt", true, false⟩ 0 rfl rfl

/-- C3: deleting a non-root folder whose prefix listing is empty does not
complete with the typed fallback outcome — `_delete_folder` evaluates the
unbound variable `prefix` and dies with an untyped `NameError`, and
`_folder_prefix_exists` itself dies on the unbound `exist_count` even when
the folder marker key exists. -/
theorem delete_folder_fallback_untyped :
    delete ⟨["other.txt"]⟩ ⟨"/f/", false, false⟩ 1 =
      ⟨.error (.pyNameError "prefix"), [.listObjects "f/"], ⟨["other.txt"]⟩⟩ ∧
    folder_prefix_exists ⟨["f"]⟩ "f/" = .error (.pyNameError "exist_count") :=
  ⟨rfl, rfl⟩

/-- C4: for every `upload` and every `intra_copy`, the returned `created`
flag is true exactly when no object existed at the final destination path
before the operation; in particular uploading over an existing key with
the replace policy reports `created = false`. -/
theorem upload_intra_copy_created_iff :
    (∀ (alg : HashAlg) (b : Backend) (p : WBPath) (conflict : Conflict)
        (s : ByteStream) (etag : String) (r : UploadResult),
        (upload alg b p conflict s etag).res = .ok r →
        (r.created = true ↔ b.keys.contains r.metadataPath = false)) ∧
    (∀ (destB : Backend) (sp dp : WBPath) (r : String × Bool),
        (intra_copy destB sp dp).res = .ok r →
        (r.2 = true ↔ destB.keys.contains r.1 = false)) ∧
    (∀ (alg : HashAlg) (b : Backend) (p : WBPath) (s : ByteStream) (etag : String)
        (r : UploadResult),
        existsObj b p = true →
        (upload alg b p .replace s etag).res = .ok r → r.created = false) := by
  refine ⟨?_, ?_, ?_⟩
  · intro alg b p conflict s etag r hr
    have h : (⟨(handle_name_conflict b p conflict).1.fullPath,
               !(handle_name_conflict b p conflict).2,
               streamDigest alg s⟩ : UploadResult) = r := Except.ok.inj hr
    subst h
    cases conflict with
    | replace => simp [handle_name_conflict, existsObj]
    | keep =>
        by_cases hx : p.fullPath ∈ b.keys
        · simp [handle_name_conflict, existsObj, hx, freshName_not_mem]
        · simp [handle_name_conflict, existsObj, hx]
  · intro destB sp dp r hr
    have h : ((dp.fullPath, !(existsObj destB dp)) : String × Bool) = r :=
      Except.ok.inj hr
    subst h
    simp [existsObj]
  · intro alg b p s etag r hex hr
    have h : (⟨(handle_name_conflict b p .replace).1.fullPath,
               !(handle_name_conflict b p .replace).2,
               streamDigest alg s⟩ : UploadResult) = r := Except.ok.inj hr
    subst h
    simp [handle_name_conflict, existsObj] at hex ⊢
    simp [hex]

/-- C4 witness: replacing the existing object `/a` reports
`created = false`, consistent with the key existing beforehand. -/
theorem upload_intra_copy_created_iff_witness :
    ((⟨"/a", false, "0"⟩ : UploadResult).created = true ↔
      (Backend.mk ["/a"]).keys.contains
        ((⟨"/a", false, "0"⟩ : UploadResult).metadataPath) = false) :=
  upload_intra_copy_created_iff.1 mdAlg ⟨["/a"]⟩ ⟨"/a", true, false⟩ .replace ⟨[]⟩ "e"
    ⟨"/a", false, "0"⟩ rfl

/-- C5 counterexample: the backend returns checksum `deadbeef` while the
incremental digest of the stream is `5`; despite the mismatch, `upload`
returns success instead of a data-integrity error. -/
theorem upload_checksum_mismatch_counterexample :
    (upload mdAlg ⟨[]⟩ ⟨"/a", true, false⟩ .replace ⟨[[1], [2]]⟩ "deadbeef").res =
      .ok ⟨"/a", true, "5"⟩ ∧ ("5" : String) ≠ "deadbeef" :=
  ⟨rfl, by decide⟩

/-- C5 amended: `upload` computes the content hash incrementally (the
fold of the hash step over the stream chunks) while the bytes are sent,
but never compares it with the backend checksum — the result is
identical for every returned ETag value. -/
theorem upload_digest_incremental_no_comparison :
    ∀ (alg : HashAlg) (b : Backend) (p : WBPath) (conflict : Conflict)
      (s : ByteStream) (etag etag2 : String),
      upload alg b p conflict s etag = upload alg b p conflict s etag2 ∧
      (upload alg b p conflict s etag).res =
        .ok ⟨(handle_name_conflict b p conflict).1.fullPath,
             !(handle_name_conflict b p conflict).2,
             alg.hex (s.chunks.foldl alg.step alg.init)⟩ :=
  fun _ _ _ _ _ _ _ => ⟨rfl, rfl⟩

/-- C6 counterexample: `_metadata_file` sends `VersionId=latest` when the
lowercase marker `latest` is passed, while the omitted-revision call sends
`VersionId=null` — a different backend query. -/
theorem latest_marker_counterexample :
    metadataFileQuery "bkt" "k" (some "latest") ≠ metadataFileQuery "bkt" "k" none := by
  decide

/-- C6 amended: `download` treats every spelling of `latest` (any case,
per `version.lower()`) exactly as an omitted version; `_metadata_file`
treats only the exact marker `Latest` as omitted (both become
`VersionId=null`), while the lowercase `latest` is sent verbatim as a
version id. -/
theorem latest_marker_amended :
    (∀ (bn k v : String), v ≠ "" → pyLower v = "latest" →
        downloadQuery bn k (some v) = downloadQuery bn k none) ∧
    (∀ bn k : String, metadataFileQuery bn k (some "Latest") = metadataFileQuery bn k none) ∧
    (∀ bn k : String, metadataFileQuery bn k (some "latest") =
        [("Bucket", bn), ("Key", k), ("VersionId", "latest")]) := by
  refine ⟨?_, fun bn k => rfl, fun bn k => rfl⟩
  intro bn k v hne hlow
  simp [downloadQuery, hlow]

/-- C6 amended witness: downloading with version `LATEST` builds the same
query as omitting the version. -/
theorem latest_marker_amended_witness :
    downloadQuery "b" "k" (some "LATEST") = downloadQuery "b" "k" none :=
  latest_marker_amended.1 "b" "k" "LATEST" (by decide) rfl

/-- C7: `validate_v1_path` on `/` returns the root path with no backend
request; on any other path it issues exactly one existence request —
folder-style when the string ends with the separator, object-style
otherwise — raising `NotFoundError` exactly when the backend answers 404
and returning the path exactly when it answers 200. -/
theorem validate_v1_path_behavior :
    (∀ (status : Nat) (prepend : String),
        validate_v1_path status prepend "/" = (.ok (mkWBPath prepend "/"), [])) ∧
    (∀ (status : Nat) (prepend path : String), path ≠ "/" →
        status = 200 ∨ status = 404 →
        ((validate_v1_path status prepend path).1 =
            .error (.notFound (lstripSlash (prepend ++ path))) ↔ status = 404) ∧
        ((validate_v1_path status prepend path).1 = .ok (mkWBPath prepend path) ↔
            status = 200) ∧
        (validate_v1_path status prepend path).2 =
          [if strEndsWith path "/" then Call.headFolder (lstripSlash (prepend ++ path))
           else Call.headObject (lstripSlash (prepend ++ path))]) := by
  constructor
  · intro status prepend
    simp [validate_v1_path]
  · intro status prepend path hpath hst
    rcases hst with rfl | rfl
    · simp [validate_v1_path, hpath, mkWBPath]
    · simp [validate_v1_path, hpath, mkWBPath]

/-- C7 witness: the theorem applied to the object path `/a` with a 404
backend answer. -/
theorem validate_v1_path_behavior_witness :
    (((validate_v1_path 404 "" "/a").1 =
        .error (.notFound (lstripSlash ("" ++ "/a"))) ↔ (404 : Nat) = 404) ∧
     ((validate_v1_path 404 "" "/a").1 = .ok (mkWBPath "" "/a") ↔ (404 : Nat) = 200) ∧
     (validate_v1_path 404 "" "/a").2 =
       [if strEndsWith "/a" "/" then Call.headFolder (lstripSlash ("" ++ "/a"))
        else Call.headObject (lstripSlash ("" ++ "/a"))]) :=
  validate_v1_path_behavior.2 404 "" "/a" (by decide) (Or.inr rfl)

/-- C9: downloading a path whose `is_file` flag is false raises
`DownloadError` with code 400 and issues no backend request. -/
theorem download_non_file_400 (b : Backend) (p : WBPath) (version : Option String)
    (h : p.isFile = false) :
    download b p version =
      (.error (.downloadError "No file specified for download" 400), []) := by
  simp [download, h]

/-- C9 witness: the theorem applied to a folder path on a bucket that
holds a key under that folder. -/
theorem download_non_file_400_witness :
    download ⟨["f/x"]⟩ ⟨"/f/", false, false⟩ none =
      (.error (.downloadError "No file specified for download" 400), []) :=
  download_non_file_400 ⟨["f/x"]⟩ ⟨"/f/", false, false⟩ none rfl

/-- C10: `can_intra_copy` and `can_intra_move` return false for every
destination provider and every path, so the capability check never
selects the native server-side copy implemented by `intra_copy`. -/
theorem can_intra_copy_move_always_false :
    ∀ (destB : Backend) (p : Option WBPath),
      can_intra_copy destB p = false ∧ can_intra_move destB p = false :=
  fun _ _ => ⟨rfl, rfl⟩

end S3Compat

namespace WBAuth

/-- C8: `AuthHandler.fetch` and `AuthHandler.get` query the extensions in
registration order and return the first truthy credential; when every
extension returns a falsy result, the `raise AuthHandler(...)` statement
raises an untyped `TypeError` (AuthHandler is not an exception class)
instead of the generic credential error the spec requires. -/
theorem authHandler_first_truthy_untyped_failure :
    (∀ (credential : String) (rest : List ExtResult),
        authFetch (some credential :: rest) = .ok credential) ∧
    (∀ rest : List ExtResult, authFetch (none :: rest) = authFetch rest) ∧
    authFetch [] = .error (.pyTypeError "exceptions must derive from BaseException") ∧
    authFetch [none, none] =
      .error (.pyTypeError "exceptions must derive from BaseException") ∧
    (∀ (credential : String) (rest : List ExtResult),
        authGet (some credential :: rest) = .ok credential) ∧
    (∀ rest : List ExtResult, authGet (none :: rest) = authGet rest) ∧
    authGet [none, none] =
      .error (.pyTypeError "exceptions must derive from BaseException") :=
  ⟨fun _ _ => rfl, fun _ => rfl, rfl, rfl, fun _ _ => rfl, fun _ => rfl, rfl⟩

end WBAuth
